import Mathlib

/-!
Verification development for the extractor repository (src/extractor.py,
src/app.py).  The Python source is shallowly embedded: the remote Gemini
service is modelled as an oracle (a status sequence per uploaded file for
`client.files.get`, and an outcome function for
`client.models.generate_content`), Python exceptions are modelled with
`Except` / explicit outcome types, and the workflow state container is a
Lean structure.  Side effects on the network are recorded in an explicit
event trace so that claims about "no call was issued" are statable.
-/

/-- A JSON value, as produced by `json.loads` / consumed by `json.dumps`.
Numbers are modelled as unbounded integers (Python ints); floating point
values are outside the model. -/
inductive Json where
  | null : Json
  | bool (b : Bool) : Json
  | int (n : Int) : Json
  | str (s : String) : Json
  | arr (xs : List Json) : Json
  | obj (kvs : List (String × Json)) : Json

/-- An uploaded-file handle as the workflow sees it (the `google.genai`
`File` object).  `name`, `uri` and `mime_type` are `Option` because the
Python code reads them with `getattr(f, attr, None)`: `none` stands for a
missing attribute or an attribute holding `None`.  `state` is the status
string computed at src/extractor.py line 43 from the reflection chain
`getattr(getattr(fresh, "state", None), "name", None) or str(...)`:
the observed readiness status ("ACTIVE", "FAILED", "PROCESSING", ...). -/
structure FileRef where
  name : Option String
  uri : Option String
  mime_type : Option String
  state : String
deriving Repr, DecidableEq

/-- Python string rendering of an optional string attribute inside an
f-string: `None` prints as "None". -/
def pyStrOpt : Option String → String
  | some s => s
  | none => "None"

/-- Outcome of one run of `_wait_until_active` (src/extractor.py lines
38-50).  `procFailed` carries the `RuntimeError` message of line 47,
`timeoutErr` the `TimeoutError` message of line 49, and `fetchError` an
exception escaping from `client.files.get` itself. -/
inductive PollOutcome where
  | active (f : FileRef) : PollOutcome
  | procFailed (msg : String) : PollOutcome
  | timeoutErr (msg : String) : PollOutcome
  | fetchError (msg : String) : PollOutcome
deriving Repr, DecidableEq

/-- The polling loop of `_wait_until_active` (src/extractor.py lines
41-50), iteration index `k`.  `fetch k` is the service's answer to the
k-th `client.files.get(name=f.name)` call (`Except.error` models the call
raising).  Time model: each loop iteration ends in `time.sleep(2)`, and
the re-fetch itself is instantaneous, so the elapsed time at the timeout
check of iteration `k` (line 48) is `2 * k` time-units; the check
`time.time() - start > timeout_s` is `timeout_s < 2 * k`.  Returns the
outcome together with the index of the iteration the loop stopped at
(hence `k` sleeps were executed and fetches `0..k` were issued). -/
def waitGo (fetch : Nat → Except String FileRef) (timeout_s : Nat)
    (k : Nat) : PollOutcome × Nat :=
  match fetch k with
  | .error msg => (.fetchError msg, k)
  | .ok fresh =>
    if fresh.state = "ACTIVE" then
      (.active fresh, k)
    else if fresh.state = "FAILED" then
      (.procFailed ("Gemini file processing FAILED for: " ++ pyStrOpt fresh.name), k)
    else if timeout_s < 2 * k then
      (.timeoutErr ("File not ACTIVE after " ++ toString timeout_s
        ++ "s. Current state: " ++ fresh.state), k)
    else
      waitGo fetch timeout_s (k + 1)
termination_by timeout_s + 2 - 2 * k
decreasing_by omega

/-- `_wait_until_active(client, f, timeout_s)` (src/extractor.py line 38):
run the polling loop from iteration 0. -/
def waitUntilActive (fetch : Nat → Except String FileRef)
    (timeout_s : Nat) : PollOutcome × Nat :=
  waitGo fetch timeout_s 0

/-- An observable interaction with the remote service during
`extractor_agent`: a `client.files.get` call (for the file with the given
name, k-th poll of its wait loop), a `time.sleep(2)`, or a
`client.models.generate_content` call. -/
inductive Event (Req : Type) where
  | fetchFile (name : String) (k : Nat) : Event Req
  | sleep : Event Req
  | generate (req : Req) : Event Req
deriving Repr, DecidableEq

/-- The service interactions performed by one wait loop on file `name`
that stopped at iteration `k`: fetch 0, sleep, fetch 1, sleep, ...,
fetch k (a sleep closes every iteration before the last). -/
def waitEvents (Req : Type) (name : String) (k : Nat) : List (Event Req) :=
  (List.range k).flatMap (fun j => [Event.fetchFile name j, Event.sleep])
    ++ [Event.fetchFile name k]

theorem waitGo_eq (fetch : Nat → Except String FileRef) (timeout_s k : Nat) :
    waitGo fetch timeout_s k =
      match fetch k with
      | .error msg => (.fetchError msg, k)
      | .ok fresh =>
        if fresh.state = "ACTIVE" then
          (.active fresh, k)
        else if fresh.state = "FAILED" then
          (.procFailed ("Gemini file processing FAILED for: " ++ pyStrOpt fresh.name), k)
        else if timeout_s < 2 * k then
          (.timeoutErr ("File not ACTIVE after " ++ toString timeout_s
            ++ "s. Current state: " ++ fresh.state), k)
        else
          waitGo fetch timeout_s (k + 1) := by
  rw [waitGo]

/-- The structured-output schema (src/extractor.py lines 17-20): the
pydantic model `ExtractionResult` with its three required fields.  Python
dicts become association lists; `Dict[str, Any]` values become `Json`. -/
structure ExtractionResult where
  fileClassification : List (String × List Int)
  projectInfo : List (String × Json)
  projectReport : String

/-- `ExtractionResult.model_dump()`: the pydantic model rendered as a JSON
value (field names as keys, in declaration order). -/
def model_dump (r : ExtractionResult) : Json :=
  .obj [("fileClassification",
          .obj (r.fileClassification.map
            (fun p => (p.1, Json.arr (p.2.map Json.int))))),
        ("projectInfo", .obj r.projectInfo),
        ("projectReport", .str r.projectReport)]

/-- Validate a JSON value as `List[int]` (the value type of
`fileClassification`). -/
def asIntList : Json → Except String (List Int)
  | .arr xs => xs.foldr
      (fun x acc =>
        match x, acc with
        | .int n, .ok ns => .ok (n :: ns)
        | .int _, .error e => .error e
        | _, _ => .error "Input should be a valid integer")
      (.ok [])
  | _ => .error "Input should be a valid list"

/-- Validate a JSON value as `Dict[str, List[int]]`. -/
def asClassification : Json → Except String (List (String × List Int))
  | .obj kvs => kvs.foldr
      (fun kv acc =>
        match asIntList kv.2, acc with
        | .ok ns, .ok rest => .ok ((kv.1, ns) :: rest)
        | .error e, _ => .error e
        | _, .error e => .error e)
      (.ok [])
  | _ => .error "Input should be a valid dictionary"

/-- `ExtractionResult.model_validate(data)` (src/extractor.py line 111):
the input must be a JSON object carrying all three required fields with
values of the declared shapes; extra keys are ignored (the pydantic
default).  `Except.error` models `ValidationError`. -/
def model_validate (data : Json) : Except String ExtractionResult :=
  match data with
  | .obj kvs =>
    match kvs.lookup "fileClassification", kvs.lookup "projectInfo",
        kvs.lookup "projectReport" with
    | some fc, some pi, some pr =>
      match asClassification fc with
      | .error e => .error e
      | .ok fcV =>
        match pi with
        | .obj piV =>
          match pr with
          | .str prV => .ok ⟨fcV, piV, prV⟩
          | _ => .error "Input should be a valid string"
        | _ => .error "Input should be a valid dictionary"
    | _, _, _ => .error "Field required"
  | _ => .error "Input should be a valid dictionary"

/-- JSON string-literal escaping used by `json.dumps` (quote, backslash and
the common control characters; other characters pass through unchanged,
matching `ensure_ascii=False`). -/
def escChar (c : Char) : String :=
  if c = '"' then "\\\""
  else if c = '\\' then "\\\\"
  else if c = '\n' then "\\n"
  else if c = '\t' then "\\t"
  else if c = '\r' then "\\r"
  else String.mk [c]

/-- Render a string as a JSON string literal. -/
def jsonQuote (s : String) : String :=
  "\"" ++ String.join (s.data.map escChar) ++ "\""

mutual

/-- `json.dumps(v, ensure_ascii=False)` (src/extractor.py line 105): the
canonical JSON text of a value, with the default ", " and ": "
separators. -/
def jsonDumps : Json → String
  | .null => "null"
  | .bool true => "true"
  | .bool false => "false"
  | .int n => toString n
  | .str s => jsonQuote s
  | .arr xs => "[" ++ jsonDumpsArr xs ++ "]"
  | .obj kvs => "\x7b" ++ jsonDumpsObj kvs ++ "\x7d"

/-- Comma-separated rendering of array elements. -/
def jsonDumpsArr : List Json → String
  | [] => ""
  | [x] => jsonDumps x
  | x :: y :: rest => jsonDumps x ++ ", " ++ jsonDumpsArr (y :: rest)

/-- Comma-separated rendering of object entries. -/
def jsonDumpsObj : List (String × Json) → String
  | [] => ""
  | [kv] => jsonQuote kv.1 ++ ": " ++ jsonDumps kv.2
  | kv :: kw :: rest =>
      jsonQuote kv.1 ++ ": " ++ jsonDumps kv.2 ++ ", " ++ jsonDumpsObj (kw :: rest)

end

/-- JSON whitespace. -/
def isWs (c : Char) : Bool :=
  c = ' ' || c = '\n' || c = '\t' || c = '\r'

/-- Drop leading JSON whitespace. -/
def skipWs : List Char → List Char
  | [] => []
  | c :: rest => if isWs c then skipWs rest else c :: rest

/-- Undo `escChar` on one escape character. -/
def unescChar (c : Char) : Option Char :=
  if c = '"' then some '"'
  else if c = '\\' then some '\\'
  else if c = 'n' then some '\n'
  else if c = 't' then some '\t'
  else if c = 'r' then some '\r'
  else none

/-- Parse the body of a JSON string literal (the opening quote already
consumed), returning the string and the rest of the input. -/
def parseStringBody : List Char → Except String (String × List Char)
  | [] => .error "Unterminated string"
  | '"' :: rest => .ok ("", rest)
  | '\\' :: rest =>
    match rest with
    | [] => .error "Unterminated string"
    | e :: rest2 =>
      match unescChar e with
      | none => .error "Invalid escape"
      | some c =>
        match parseStringBody rest2 with
        | .error msg => .error msg
        | .ok (s, r) => .ok (String.mk (c :: s.data), r)
  | c :: rest =>
    match parseStringBody rest with
    | .error msg => .error msg
    | .ok (s, r) => .ok (String.mk (c :: s.data), r)

/-- Split the longest leading run of decimal digits off the input. -/
def takeDigits : List Char → List Char × List Char
  | [] => ([], [])
  | c :: rest =>
    if c.isDigit then
      let (ds, r) := takeDigits rest
      (c :: ds, r)
    else ([], c :: rest)

/-- Natural number denoted by a list of decimal digits. -/
def digitsToNat (ds : List Char) : Nat :=
  ds.foldl (fun acc c => 10 * acc + (c.toNat - '0'.toNat)) 0

/-- Consume an expected literal keyword, if present. -/
def dropLit : List Char → List Char → Option (List Char)
  | [], cs => some cs
  | l :: ls, c :: cs => if c = l then dropLit ls cs else none
  | _ :: _, [] => none

mutual

/-- Recursive-descent JSON value parser (model of Python's `json.loads`).
Fuel-indexed to make the recursion structural; `jsonLoads` supplies ample
fuel.  Restrictions of the model: numbers are integers (no floats) and
only the escapes of `escChar` are understood — inputs outside this
fragment simply fail to parse, which the workflow treats like any other
parse failure. -/
def parseVal : Nat → List Char → Except String (Json × List Char)
  | 0, _ => .error "Expecting value"
  | fuel + 1, cs =>
    match skipWs cs with
    | [] => .error "Expecting value"
    | '"' :: rest =>
      match parseStringBody rest with
      | .error e => .error e
      | .ok (s, r) => .ok (.str s, r)
    | '[' :: rest =>
      (match skipWs rest with
       | ']' :: r => .ok (.arr [], r)
       | other => match parseArrItems fuel other with
         | .error e => .error e
         | .ok (xs, r) => .ok (.arr xs, r))
    | '\x7b' :: rest =>
      (match skipWs rest with
       | '\x7d' :: r => .ok (.obj [], r)
       | other => match parseObjItems fuel other with
         | .error e => .error e
         | .ok (kvs, r) => .ok (.obj kvs, r))
    | '-' :: rest =>
      (match takeDigits rest with
       | ([], _) => .error "Expecting value"
       | (ds, r) => .ok (.int (-(digitsToNat ds : Int)), r))
    | c :: rest =>
      if c.isDigit then
        match takeDigits (c :: rest) with
        | (ds, r) => .ok (.int (digitsToNat ds : Int), r)
      else
        match dropLit ['n', 'u', 'l', 'l'] (c :: rest) with
        | some r => .ok (.null, r)
        | none =>
          match dropLit ['t', 'r', 'u', 'e'] (c :: rest) with
          | some r => .ok (.bool true, r)
          | none =>
            match dropLit ['f', 'a', 'l', 's', 'e'] (c :: rest) with
            | some r => .ok (.bool false, r)
            | none => .error "Expecting value"

/-- Parse a non-empty comma-separated list of array elements, up to and
including the closing bracket. -/
def parseArrItems : Nat → List Char → Except String (List Json × List Char)
  | 0, _ => .error "Expecting value"
  | fuel + 1, cs =>
    match parseVal fuel cs with
    | .error e => .error e
    | .ok (v, r) =>
      match skipWs r with
      | ',' :: r2 =>
        (match parseArrItems fuel r2 with
         | .error e => .error e
         | .ok (vs, r3) => .ok (v :: vs, r3))
      | ']' :: r2 => .ok ([v], r2)
      | _ => .error "Expecting comma"

/-- Parse a non-empty comma-separated list of object entries, up to and
including the closing brace. -/
def parseObjItems : Nat → List Char →
    Except String (List (String × Json) × List Char)
  | 0, _ => .error "Expecting value"
  | fuel + 1, cs =>
    match skipWs cs with
    | '"' :: rest =>
      (match parseStringBody rest with
       | .error e => .error e
       | .ok (k, r) =>
         match skipWs r with
         | ':' :: r2 =>
           (match parseVal fuel r2 with
            | .error e => .error e
            | .ok (v, r3) =>
              match skipWs r3 with
              | ',' :: r4 =>
                (match parseObjItems fuel r4 with
                 | .error e => .error e
                 | .ok (kvs, r5) => .ok ((k, v) :: kvs, r5))
              | '\x7d' :: r4 => .ok ([(k, v)], r4)
              | _ => .error "Expecting comma")
         | _ => .error "Expecting colon")
    | _ => .error "Expecting property name"

end

/-- `json.loads(response_text)` (src/extractor.py line 110): parse a whole
JSON document; trailing non-whitespace is an error.  `Except.error` models
`json.JSONDecodeError`. -/
def jsonLoads (s : String) : Except String Json :=
  match parseVal (s.length + 1) s.data with
  | .error e => .error e
  | .ok (v, rest) =>
    match skipWs rest with
    | [] => .ok v
    | _ => .error "Extra data"

/-- The combined `try` body of src/extractor.py lines 109-111:
`json.loads` then `ExtractionResult.model_validate`; either failure is
caught by the same `except` arm. -/
def parseValidate (t : String) : Except String ExtractionResult :=
  match jsonLoads t with
  | .error e => .error e
  | .ok data => model_validate data

/-- Modelled from the spec: the fixed instruction-prompt string returned
by `get_extractor_prompt()` (module `prompts.extractor_prompts`, which is
not under src/).  Per §4.2 of the spec it is one fixed string; its exact
content does not matter to any claim, only that the same single prompt
always heads the request. -/
def get_extractor_prompt : String :=
  "<fixed extractor instruction prompt>"

/-- Modelled from the spec: the workflow state container `BidState`
(module `core.state`, which is not under src/).  Per §3 of the spec it
holds the list of uploaded file handles, the last extraction result split
into three fields, the raw unparsed model output, and the ordered error
list; it is created fresh per invocation with everything unset/empty.
`gemini_files` is `Option` of a list of `Option FileRef` because the
Python attribute may be `None` (the code guards with `or []`) and list
entries may be `None` (the code guards with `if not f`); the three result
fields and the raw output are `Option` so that "unset/empty" is `none`.
`drawings_files` / `other_files` back the two counts the UI reads
(src/app.py lines 59-60). -/
structure BidState where
  gemini_files : Option (List (Option FileRef)) := none
  errors : List String := []
  raw_extractor_output : Option String := none
  file_classification : Option (List (String × List Int)) := none
  project_info : Option (List (String × Json)) := none
  project_report : Option String := none
  drawings_files : List Int := []
  other_files : List Int := []

/-- A `genai_types.Part.from_uri(file_uri=..., mime_type=...)` content
part (src/extractor.py lines 77-80). -/
structure UriPart where
  file_uri : String
  mime_type : String
deriving Repr, DecidableEq

/-- The single `client.models.generate_content` request the workflow
builds (src/extractor.py lines 86-93): model name, the prompt heading
`contents`, the file parts following it, and the fixed structured-output
config (`response_schema=ExtractionResult` is a fixed type argument, not
data, so it is not a field). -/
structure GenRequest where
  model : String
  contents_prompt : String
  contents_parts : List UriPart
  response_mime_type : String
deriving Repr, DecidableEq

/-- The response object of a successful `generate_content` call:
`response.parsed` (the already-parsed structured object, when the service
provides one) and `response.text` (raw text, possibly `None`). -/
structure GenResponse where
  parsed : Option ExtractionResult
  text : Option String

/-- Outcome of the `generate_content` call: an `genai_errors.APIError`
(line 94), any other exception (line 97), or a response.  The carried
string stands for the diagnostic text `traceback.format_exc()` would
render. -/
inductive GenOutcome where
  | apiError (tb : String) : GenOutcome
  | otherError (tb : String) : GenOutcome
  | ok (resp : GenResponse) : GenOutcome

/-- The remote service and ambient session, as the workflow observes
them: `fetchSeq n k` answers the k-th `client.files.get(name=n)` call of
a wait loop on the file named `n`; `generate` answers the one
`generate_content` call; `modelName` is
`st.session_state.get("MODEL_NAME", ...)` (`none` = key missing). -/
structure Oracle where
  fetchSeq : String → Nat → Except String FileRef
  generate : GenRequest → GenOutcome
  modelName : Option String

/-- The file-activation loop of src/extractor.py lines 58-62: walk the
input list, silently skipping entries that are `None` or lack a truthy
`name` (line 60-61), and run `_wait_until_active` (with its default
timeout of 180) on each kept entry.  Returns either the collected
refreshed references or the first failure's diagnostic text, together
with the trace of service interactions performed. -/
def activate (o : Oracle) :
    List (Option FileRef) → Except String (List FileRef) × List (Event GenRequest)
  | [] => (.ok [], [])
  | x :: rest =>
    match x with
    | none => activate o rest
    | some f =>
      match f.name with
      | none => activate o rest
      | some n =>
        if n = "" then activate o rest
        else
          match waitUntilActive (o.fetchSeq n) 180 with
          | (.active fresh, k) =>
            (match activate o rest with
             | (.ok fs, evs2) => (.ok (fresh :: fs), waitEvents GenRequest n k ++ evs2)
             | (.error m, evs2) => (.error m, waitEvents GenRequest n k ++ evs2))
          | (.procFailed m, k) => (.error m, waitEvents GenRequest n k)
          | (.timeoutErr m, k) => (.error m, waitEvents GenRequest n k)
          | (.fetchError m, k) => (.error m, waitEvents GenRequest n k)

/-- Truthiness of the `uri` attribute (`getattr(f, "uri", None)` at
src/extractor.py line 68): present and non-empty. -/
def uriTruthy (f : FileRef) : Bool :=
  match f.uri with
  | some u => u ≠ ""
  | none => false

/-- `getattr(f, "mime_type", "application/pdf")` (src/extractor.py line
79): the reference's MIME type, defaulting to "application/pdf" when it
does not specify one. -/
def mimeOrDefault (f : FileRef) : String :=
  match f.mime_type with
  | some m => m
  | none => "application/pdf"

/-- The content part built for one valid file reference
(src/extractor.py lines 76-82). -/
def partOf (f : FileRef) : UriPart :=
  { file_uri := pyStrOpt f.uri, mime_type := mimeOrDefault f }

/-- The `generate_content` request built from the surviving valid
references (src/extractor.py lines 73-93). -/
def builtRequest (o : Oracle) (files : List FileRef) : GenRequest :=
  { model := match o.modelName with
             | some m => m
             | none => "gemini-2.5-flash",
    contents_prompt := get_extractor_prompt,
    contents_parts := files.map partOf,
    response_mime_type := "application/json" }

/-- Python's `str.strip()` (src/extractor.py line 107): remove leading and
trailing whitespace (modelled as the `isWs` set). -/
def pyStrip (s : String) : String :=
  String.mk (((s.data.dropWhile isWs).reverse.dropWhile isWs).reverse)

/-- Truthy lookup in the classification mapping: `fc.get(key)` followed by
Python `or`, so a missing key and an empty list both fall through. -/
def lookupTruthy (fc : List (String × List Int)) (key : String) :
    Option (List Int) :=
  match fc.lookup key with
  | some [] => none
  | some l => some l
  | none => none

/-- Modelled from the spec: the side classification step at the tail of
`extractor_agent` (src/extractor.py truncates mid-statement at line 121,
`drawings_idxs = fc.get("drawingsFiles") or fc.get("drawings") or ...`).
Per §4.2/§9 of the spec it inspects the `fileClassification` mapping for
recognized aliases of "drawings" (the visible fragment tries
"drawingsFiles" then "drawings") and partitions the uploaded file indices
into a drawings subset and an "other" subset; the exact alias list and
partition rule are an open question in the spec.  It writes only the
`drawings_files` / `other_files` fields — it touches neither the error
list nor the three result fields. -/
def classifyTail (s : BidState) (x : ExtractionResult) : BidState :=
  let fc := x.fileClassification
  let drawings_idxs :=
    match lookupTruthy fc "drawingsFiles" with
    | some l => l
    | none =>
      match lookupTruthy fc "drawings" with
      | some l => l
      | none => []
  let n := (match s.gemini_files with
            | none => []
            | some l => l).length
  { s with drawings_files := drawings_idxs,
           other_files :=
             ((List.range n).map (fun i => (i : Int))).filter
               (fun i => ¬ drawings_idxs.contains i) }

/-- Populate the three result fields from the validated object
(src/extractor.py lines 116-118) and run the tail classification step. -/
def finishSuccess (s : BidState) (x : ExtractionResult) : BidState :=
  classifyTail
    { s with file_classification := some x.fileClassification,
             project_info := some x.projectInfo,
             project_report := some x.projectReport } x

/-- `extractor_agent(state)` (src/extractor.py lines 53-121), returning
the final state together with the trace of service interactions.  The
credential bootstrap `_get_client` (lines 23-35) is outside the model:
the oracle stands for an already-constructed client.  Control flow in
order: the activation loop with its catch-all `except` (lines 57-66), the
URI filter and NoValidFiles failure (lines 68-71), request construction
(lines 73-83), the `generate_content` call with its two `except` arms
(lines 85-99), the parsed / raw-text result resolution (lines 101-114),
and the success assignments plus tail classification (lines 116-121).
The strings appended to `state.errors` carry the oracle-provided
diagnostic text where Python would interpolate `traceback.format_exc()`
or the exception. -/
def filesOf (state : BidState) : List (Option FileRef) :=
  match state.gemini_files with
  | none => []
  | some l => l

/-- `(response.text or "").strip()` (src/extractor.py line 107). -/
def responseText (resp : GenResponse) : String :=
  pyStrip (match resp.text with
           | some t => t
           | none => "")

def extractor_agent (o : Oracle) (state : BidState) :
    BidState × List (Event GenRequest) :=
  match activate o (filesOf state) with
  | (.error tb, evs) =>
    ({ state with errors := state.errors ++ ["File activation error:\n" ++ tb] },
     evs)
  | (.ok actives, evs) =>
    let state1 := { state with gemini_files := some (actives.map some) }
    let files := actives.filter uriTruthy
    if files.isEmpty then
      ({ state1 with errors := state1.errors ++
          ["Extractor error: no valid uploaded Gemini files (missing .uri or .name)."] },
       evs)
    else
      let req := builtRequest o files
      let evs2 := evs ++ [Event.generate req]
      match o.generate req with
      | .apiError tb =>
        ({ state1 with errors := state1.errors ++
            ["Extractor Gemini APIError:\n" ++ tb] }, evs2)
      | .otherError tb =>
        ({ state1 with errors := state1.errors ++
            ["Extractor Gemini call error:\n" ++ tb] }, evs2)
      | .ok resp =>
        match resp.parsed with
        | some extracted =>
          (finishSuccess
            { state1 with
              raw_extractor_output := some (jsonDumps (model_dump extracted)) }
            extracted, evs2)
        | none =>
          let response_text := responseText resp
          let state2 := { state1 with raw_extractor_output := some response_text }
          match parseValidate response_text with
          | .error e =>
            ({ state2 with errors := state2.errors ++
                ["Extractor JSON parse/validate error: " ++ e] }, evs2)
          | .ok extracted => (finishSuccess state2 extracted, evs2)

/-- A freshly created workflow state carrying the uploaded file handles
(src/app.py lines 23-40: `BidState()` then `state.gemini_files = active`);
everything else holds its fresh default. -/
def BidState.init (files : List (Option FileRef)) : BidState :=
  { gemini_files := some files }

/-- Truthiness of an input list entry at src/extractor.py lines 60-61:
the entry must be a real object (`not f` fails) with a truthy `name`. -/
def usableRef : Option FileRef → Bool
  | none => false
  | some f =>
    match f.name with
    | some n => n ≠ ""
    | none => false

theorem waitGo_stop_active (fetch : Nat → Except String FileRef)
    (t k : Nat) (f : FileRef) (h : fetch k = .ok f)
    (hA : f.state = "ACTIVE") :
    waitGo fetch t k = (.active f, k) := by
  rw [waitGo_eq, h]
  simp [hA]

theorem waitGo_stop_failed (fetch : Nat → Except String FileRef)
    (t k : Nat) (f : FileRef) (h : fetch k = .ok f)
    (hF : f.state = "FAILED") :
    waitGo fetch t k =
      (.procFailed ("Gemini file processing FAILED for: " ++ pyStrOpt f.name), k) := by
  rw [waitGo_eq, h]
  simp [hF]

theorem waitGo_cont (fetch : Nat → Except String FileRef)
    (t k : Nat) (f : FileRef) (h : fetch k = .ok f)
    (hA : f.state ≠ "ACTIVE") (hF : f.state ≠ "FAILED") (ht : 2 * k ≤ t) :
    waitGo fetch t k = waitGo fetch t (k + 1) := by
  have ht2 : ¬ t < 2 * k := by omega
  rw [waitGo_eq, h]
  simp [hA, hF, ht2]

theorem waitGo_shift (fetch : Nat → Except String FileRef) (t : Nat)
    (d : Nat) :
    ∀ k, (∀ j, k ≤ j → j < k + d →
      ∃ f, fetch j = .ok f ∧ f.state ≠ "ACTIVE" ∧ f.state ≠ "FAILED" ∧ 2 * j ≤ t) →
    waitGo fetch t k = waitGo fetch t (k + d) := by
  induction d with
  | zero => intro k _; rfl
  | succ d ih =>
    intro k h
    obtain ⟨f, hf, hA, hF, ht⟩ := h k le_rfl (by omega)
    rw [waitGo_cont fetch t k f hf hA hF ht]
    have := ih (k + 1) (fun j hj1 hj2 => h j (by omega) (by omega))
    rw [this]
    congr 1
    omega

theorem waitGo_classify (fetch : Nat → Except String FileRef) (t : Nat)
    (h : ∀ j, ∃ f, fetch j = .ok f) :
    ∀ n k, t + 2 - 2 * k ≤ n →
      (∃ f m, waitGo fetch t k = (.active f, m)) ∨
      (∃ msg m, waitGo fetch t k = (.procFailed msg, m)) ∨
      (∃ f m, fetch m = .ok f ∧ t < 2 * m ∧
        waitGo fetch t k =
          (.timeoutErr ("File not ACTIVE after " ++ toString t
            ++ "s. Current state: " ++ f.state), m)) := by
  intro n
  induction n with
  | zero =>
    intro k hk
    obtain ⟨f, hf⟩ := h k
    by_cases hA : f.state = "ACTIVE"
    · exact .inl ⟨f, k, waitGo_stop_active fetch t k f hf hA⟩
    by_cases hF : f.state = "FAILED"
    · exact .inr (.inl ⟨_, k, waitGo_stop_failed fetch t k f hf hF⟩)
    have ht : t < 2 * k := by omega
    refine .inr (.inr ⟨f, k, hf, ht, ?_⟩)
    rw [waitGo_eq, hf]
    simp [hA, hF, ht]
  | succ n ih =>
    intro k hk
    obtain ⟨f, hf⟩ := h k
    by_cases hA : f.state = "ACTIVE"
    · exact .inl ⟨f, k, waitGo_stop_active fetch t k f hf hA⟩
    by_cases hF : f.state = "FAILED"
    · exact .inr (.inl ⟨_, k, waitGo_stop_failed fetch t k f hf hF⟩)
    by_cases ht : t < 2 * k
    · refine .inr (.inr ⟨f, k, hf, ht, ?_⟩)
      rw [waitGo_eq, hf]
      simp [hA, hF, ht]
    · rw [waitGo_cont fetch t k f hf hA hF (by omega)]
      exact ih (k + 1) (by omega)

/-- C5: for every sequence of statuses reported by the remote service,
the polling loop of `_wait_until_active` terminates (it is a total
function in the model, and this theorem exhibits the only three shapes
its value can take): it returns a refreshed active reference, fails with
the ProcessingFailed error, or — when polling (at 2 time-units per
iteration) has driven the elapsed time `2 * m` past the timeout — fails
with a Timeout error reporting the last observed status. -/
theorem claim_C5_poller_terminates (fetch : Nat → Except String FileRef)
    (t : Nat) (h : ∀ j, ∃ f, fetch j = .ok f) :
    (∃ f m, waitUntilActive fetch t = (.active f, m)) ∨
    (∃ msg m, waitUntilActive fetch t = (.procFailed msg, m)) ∨
    (∃ f m, fetch m = .ok f ∧ t < 2 * m ∧
      waitUntilActive fetch t =
        (.timeoutErr ("File not ACTIVE after " ++ toString t
          ++ "s. Current state: " ++ f.state), m)) :=
  waitGo_classify fetch t h (t + 2) 0 (by omega)

/-- A reference that reports "PROCESSING" forever (witness input). -/
def refW5 : FileRef :=
  { name := some "w5", uri := some "u", mime_type := none,
    state := "PROCESSING" }

/-- A fetch sequence that always answers `refW5` (witness input). -/
def fetchW5 : Nat → Except String FileRef :=
  fun _ => .ok refW5

/-- Witness for C5: a file that forever reports "PROCESSING" against a
timeout of 0 time-units; evaluating the loop confirms the classification
(here the Timeout disjunct, reached at iteration 1). -/
theorem claim_C5_witness :
    (∀ j : Nat, ∃ f, fetchW5 j = .ok f) ∧
    ((∃ f m, waitUntilActive fetchW5 0 = (.active f, m)) ∨
     (∃ msg m, waitUntilActive fetchW5 0 = (.procFailed msg, m)) ∨
     (∃ f m, fetchW5 m = .ok f ∧ 0 < 2 * m ∧
        waitUntilActive fetchW5 0 =
          (.timeoutErr ("File not ACTIVE after " ++ toString 0
            ++ "s. Current state: " ++ f.state), m))) :=
  ⟨fun _ => ⟨refW5, rfl⟩,
   claim_C5_poller_terminates fetchW5 0 (fun _ => ⟨refW5, rfl⟩)⟩

/-- C6: a file reference whose first re-fetched status is "ACTIVE" makes
`_wait_until_active` return the refreshed reference from iteration 0:
no sleep has run and no further poll is issued (the whole interaction is
the single initial fetch). -/
theorem claim_C6_active_returns_immediately
    (fetch : Nat → Except String FileRef) (t : Nat) (f : FileRef)
    (h : fetch 0 = .ok f) (hA : f.state = "ACTIVE") :
    waitUntilActive fetch t = (.active f, 0) ∧
    ∀ nm : String, waitEvents GenRequest nm 0 = [Event.fetchFile nm 0] :=
  ⟨waitGo_stop_active fetch t 0 f h hA, fun _ => rfl⟩

/-- A reference that is already "ACTIVE" (witness input). -/
def refW6 : FileRef :=
  { name := some "w6", uri := some "u", mime_type := none, state := "ACTIVE" }

/-- A fetch sequence that always answers `refW6` (witness input). -/
def fetchW6 : Nat → Except String FileRef :=
  fun _ => .ok refW6

/-- Witness for C6 at a concrete always-ACTIVE reference. -/
theorem claim_C6_witness :
    fetchW6 0 = .ok refW6 ∧ refW6.state = "ACTIVE" ∧
    (waitUntilActive fetchW6 180 = (.active refW6, 0) ∧
     ∀ nm : String, waitEvents GenRequest nm 0 = [Event.fetchFile nm 0]) :=
  ⟨rfl, rfl, claim_C6_active_returns_immediately fetchW6 180 refW6 rfl rfl⟩

/-- C7: if every poll before iteration `m` reports a non-terminal status
in time, and the poll at iteration `m` reports "FAILED", then
`_wait_until_active` stops at iteration `m` with the ProcessingFailed
error naming the file — the stop index `m` records that no poll beyond
the failing one is issued. -/
theorem claim_C7_failed_stops_polling
    (fetch : Nat → Except String FileRef) (t m : Nat) (g : FileRef)
    (hprev : ∀ j, j < m →
      ∃ f, fetch j = .ok f ∧ f.state ≠ "ACTIVE" ∧ f.state ≠ "FAILED" ∧ 2 * j ≤ t)
    (hm : fetch m = .ok g) (hg : g.state = "FAILED") :
    waitUntilActive fetch t =
      (.procFailed ("Gemini file processing FAILED for: " ++ pyStrOpt g.name), m) := by
  have hshift := waitGo_shift fetch t m 0
    (fun j _ hj => hprev j (by omega))
  rw [waitUntilActive, hshift, Nat.zero_add]
  exact waitGo_stop_failed fetch t m g hm hg

/-- A reference that reports "FAILED" (witness input). -/
def refW7b : FileRef :=
  { name := some "w7", uri := some "u", mime_type := none, state := "FAILED" }

/-- A fetch sequence answering "PROCESSING" once and then "FAILED"
(witness input). -/
def fetchW7 : Nat → Except String FileRef :=
  fun k => if k = 0 then .ok refW5 else .ok refW7b

/-- Witness for C7: the second poll reports "FAILED" and the loop stops
there. -/
theorem claim_C7_witness :
    (∀ j, j < 1 →
      ∃ f, fetchW7 j = .ok f ∧ f.state ≠ "ACTIVE" ∧ f.state ≠ "FAILED" ∧
        2 * j ≤ 180) ∧
    fetchW7 1 = .ok refW7b ∧ refW7b.state = "FAILED" ∧
    waitUntilActive fetchW7 180 =
      (.procFailed ("Gemini file processing FAILED for: " ++ pyStrOpt refW7b.name), 1) := by
  refine ⟨?_, rfl, rfl, ?_⟩
  · intro j hj
    have hj0 : j = 0 := by omega
    subst hj0
    exact ⟨refW5, rfl, by decide, by decide, by omega⟩
  · exact claim_C7_failed_stops_polling fetchW7 180 1 refW7b
      (fun j hj => by
        have hj0 : j = 0 := by omega
        subst hj0
        exact ⟨refW5, rfl, by decide, by decide, by omega⟩)
      rfl rfl

theorem asIntList_map_int (l : List Int) :
    asIntList (.arr (l.map Json.int)) = .ok l := by
  induction l with
  | nil => rfl
  | cons n ns ih =>
    simp only [asIntList, List.map_cons, List.foldr_cons] at ih ⊢
    rw [ih]

theorem asClassification_map (fc : List (String × List Int)) :
    asClassification
      (.obj (fc.map (fun p => (p.1, Json.arr (p.2.map Json.int))))) = .ok fc := by
  induction fc with
  | nil => rfl
  | cons p ps ih =>
    simp only [asClassification, List.map_cons, List.foldr_cons] at ih ⊢
    rw [asIntList_map_int]
    rw [ih]

/-- C9: serializing a schema-conforming extraction result with
`model_dump` and validating the result back with `model_validate` yields
the original value field for field (the textual `json.dumps` /
`json.loads` layer in between is exact on JSON values and is factored out
of the model). -/
theorem claim_C9_roundtrip (r : ExtractionResult) :
    model_validate (model_dump r) = .ok r := by
  simp only [model_validate, model_dump, List.lookup]
  rw [show ("projectInfo" == "fileClassification") = false from rfl,
      show ("projectReport" == "fileClassification") = false from rfl,
      show ("projectReport" == "projectInfo") = false from rfl,
      show ("fileClassification" == "fileClassification") = true from rfl,
      show ("projectInfo" == "projectInfo") = true from rfl,
      show ("projectReport" == "projectReport") = true from rfl]
  simp only []
  rw [asClassification_map]

theorem agent_activation_error (o : Oracle) (s : BidState) (tb : String)
    (evs : List (Event GenRequest))
    (h : activate o (filesOf s) = (.error tb, evs)) :
    extractor_agent o s =
      ({ s with errors := s.errors ++ ["File activation error:\n" ++ tb] }, evs) := by
  unfold extractor_agent
  rw [h]

theorem agent_no_valid_files (o : Oracle) (s : BidState)
    (actives : List FileRef) (evs : List (Event GenRequest))
    (h1 : activate o (filesOf s) = (.ok actives, evs))
    (h2 : (actives.filter uriTruthy).isEmpty = true) :
    extractor_agent o s =
      ({ s with gemini_files := some (actives.map some),
                errors := s.errors ++
                  ["Extractor error: no valid uploaded Gemini files (missing .uri or .name)."] },
       evs) := by
  unfold extractor_agent
  rw [h1]
  simp only [h2, if_true]

theorem agent_api_error (o : Oracle) (s : BidState)
    (actives : List FileRef) (evs : List (Event GenRequest)) (tb : String)
    (h1 : activate o (filesOf s) = (.ok actives, evs))
    (h2 : (actives.filter uriTruthy).isEmpty = false)
    (h3 : o.generate (builtRequest o (actives.filter uriTruthy)) = .apiError tb) :
    extractor_agent o s =
      ({ s with gemini_files := some (actives.map some),
                errors := s.errors ++ ["Extractor Gemini APIError:\n" ++ tb] },
       evs ++ [Event.generate (builtRequest o (actives.filter uriTruthy))]) := by
  unfold extractor_agent
  rw [h1]
  simp only [h2, h3, Bool.false_eq_true, if_false]

theorem agent_other_error (o : Oracle) (s : BidState)
    (actives : List FileRef) (evs : List (Event GenRequest)) (tb : String)
    (h1 : activate o (filesOf s) = (.ok actives, evs))
    (h2 : (actives.filter uriTruthy).isEmpty = false)
    (h3 : o.generate (builtRequest o (actives.filter uriTruthy)) = .otherError tb) :
    extractor_agent o s =
      ({ s with gemini_files := some (actives.map some),
                errors := s.errors ++ ["Extractor Gemini call error:\n" ++ tb] },
       evs ++ [Event.generate (builtRequest o (actives.filter uriTruthy))]) := by
  unfold extractor_agent
  rw [h1]
  simp only [h2, h3, Bool.false_eq_true, if_false]

theorem agent_parsed_ok (o : Oracle) (s : BidState)
    (actives : List FileRef) (evs : List (Event GenRequest))
    (resp : GenResponse) (x : ExtractionResult)
    (h1 : activate o (filesOf s) = (.ok actives, evs))
    (h2 : (actives.filter uriTruthy).isEmpty = false)
    (h3 : o.generate (builtRequest o (actives.filter uriTruthy)) = .ok resp)
    (h4 : resp.parsed = some x) :
    extractor_agent o s =
      (finishSuccess
        { s with gemini_files := some (actives.map some),
                 raw_extractor_output := some (jsonDumps (model_dump x)) } x,
       evs ++ [Event.generate (builtRequest o (actives.filter uriTruthy))]) := by
  unfold extractor_agent
  rw [h1]
  simp only [h2, h3, h4, Bool.false_eq_true, if_false]

theorem agent_parse_error (o : Oracle) (s : BidState)
    (actives : List FileRef) (evs : List (Event GenRequest))
    (resp : GenResponse) (e : String)
    (h1 : activate o (filesOf s) = (.ok actives, evs))
    (h2 : (actives.filter uriTruthy).isEmpty = false)
    (h3 : o.generate (builtRequest o (actives.filter uriTruthy)) = .ok resp)
    (h4 : resp.parsed = none)
    (h5 : parseValidate (responseText resp) = .error e) :
    extractor_agent o s =
      ({ s with gemini_files := some (actives.map some),
                raw_extractor_output := some (responseText resp),
                errors := s.errors ++ ["Extractor JSON parse/validate error: " ++ e] },
       evs ++ [Event.generate (builtRequest o (actives.filter uriTruthy))]) := by
  unfold extractor_agent
  rw [h1]
  simp only [h2, h3, h4, h5, Bool.false_eq_true, if_false]

theorem agent_text_ok (o : Oracle) (s : BidState)
    (actives : List FileRef) (evs : List (Event GenRequest))
    (resp : GenResponse) (x : ExtractionResult)
    (h1 : activate o (filesOf s) = (.ok actives, evs))
    (h2 : (actives.filter uriTruthy).isEmpty = false)
    (h3 : o.generate (builtRequest o (actives.filter uriTruthy)) = .ok resp)
    (h4 : resp.parsed = none)
    (h5 : parseValidate (responseText resp) = .ok x) :
    extractor_agent o s =
      (finishSuccess
        { s with gemini_files := some (actives.map some),
                 raw_extractor_output := some (responseText resp) } x,
       evs ++ [Event.generate (builtRequest o (actives.filter uriTruthy))]) := by
  unfold extractor_agent
  rw [h1]
  simp only [h2, h3, h4, h5, Bool.false_eq_true, if_false]

/-- C2: for every service behavior (oracle) and every input state, the
workflow function is total in the model and either appends exactly one
human-readable failure message to the error list — leaving the three
result fields exactly as they were (empty on a fresh state) — or finishes
with the error list unchanged; no branch raises past the boundary. -/
theorem claim_C2_failures_caught (o : Oracle) (s : BidState) :
    (∃ m, (extractor_agent o s).1.errors = s.errors ++ [m] ∧
      (extractor_agent o s).1.file_classification = s.file_classification ∧
      (extractor_agent o s).1.project_info = s.project_info ∧
      (extractor_agent o s).1.project_report = s.project_report) ∨
    (extractor_agent o s).1.errors = s.errors := by
  cases hact : activate o (filesOf s) with
  | mk res evs =>
    cases res with
    | error tb =>
      rw [agent_activation_error o s tb evs hact]
      exact .inl ⟨_, rfl, rfl, rfl, rfl⟩
    | ok actives =>
      cases hfil : (actives.filter uriTruthy).isEmpty with
      | true =>
        rw [agent_no_valid_files o s actives evs hact hfil]
        exact .inl ⟨_, rfl, rfl, rfl, rfl⟩
      | false =>
        cases hgen : o.generate (builtRequest o (actives.filter uriTruthy)) with
        | apiError tb =>
          rw [agent_api_error o s actives evs tb hact hfil hgen]
          exact .inl ⟨_, rfl, rfl, rfl, rfl⟩
        | otherError tb =>
          rw [agent_other_error o s actives evs tb hact hfil hgen]
          exact .inl ⟨_, rfl, rfl, rfl, rfl⟩
        | ok resp =>
          cases hp : resp.parsed with
          | some x =>
            rw [agent_parsed_ok o s actives evs resp x hact hfil hgen hp]
            right
            simp [finishSuccess, classifyTail]
          | none =>
            cases hpv : parseValidate (responseText resp) with
            | error e =>
              rw [agent_parse_error o s actives evs resp e hact hfil hgen hp hpv]
              exact .inl ⟨_, rfl, rfl, rfl, rfl⟩
            | ok x =>
              rw [agent_text_ok o s actives evs resp x hact hfil hgen hp hpv]
              right
              simp [finishSuccess, classifyTail]

/-- C1: on a freshly created workflow state, every run ends in exactly
one of two shapes — full success (empty error list and all three result
fields populated) or failure (non-empty error list and all three result
fields still unset).  In particular a non-empty error list implies the
result fields are empty, and populated result fields imply an empty
error list. -/
theorem claim_C1_error_result_invariant (o : Oracle)
    (files : List (Option FileRef)) :
    ((extractor_agent o (BidState.init files)).1.errors = [] ∧
     (extractor_agent o (BidState.init files)).1.file_classification ≠ none ∧
     (extractor_agent o (BidState.init files)).1.project_info ≠ none ∧
     (extractor_agent o (BidState.init files)).1.project_report ≠ none) ∨
    ((extractor_agent o (BidState.init files)).1.errors ≠ [] ∧
     (extractor_agent o (BidState.init files)).1.file_classification = none ∧
     (extractor_agent o (BidState.init files)).1.project_info = none ∧
     (extractor_agent o (BidState.init files)).1.project_report = none) := by
  cases hact : activate o (filesOf (BidState.init files)) with
  | mk res evs =>
    cases res with
    | error tb =>
      rw [agent_activation_error _ _ tb evs hact]
      right
      simp [BidState.init]
    | ok actives =>
      cases hfil : (actives.filter uriTruthy).isEmpty with
      | true =>
        rw [agent_no_valid_files _ _ actives evs hact hfil]
        right
        simp [BidState.init]
      | false =>
        cases hgen : o.generate (builtRequest o (actives.filter uriTruthy)) with
        | apiError tb =>
          rw [agent_api_error _ _ actives evs tb hact hfil hgen]
          right
          simp [BidState.init]
        | otherError tb =>
          rw [agent_other_error _ _ actives evs tb hact hfil hgen]
          right
          simp [BidState.init]
        | ok resp =>
          cases hp : resp.parsed with
          | some x =>
            rw [agent_parsed_ok _ _ actives evs resp x hact hfil hgen hp]
            left
            simp [BidState.init, finishSuccess, classifyTail]
          | none =>
            cases hpv : parseValidate (responseText resp) with
            | error e =>
              rw [agent_parse_error _ _ actives evs resp e hact hfil hgen hp hpv]
              right
              simp [BidState.init]
            | ok x =>
              rw [agent_text_ok _ _ actives evs resp x hact hfil hgen hp hpv]
              left
              simp [BidState.init, finishSuccess, classifyTail]

theorem waitEvents_no_generate (nm : String) (k : Nat) (r : GenRequest) :
    Event.generate r ∉ waitEvents GenRequest nm k := by
  simp [waitEvents]

theorem activate_no_generate (o : Oracle) (l : List (Option FileRef)) :
    ∀ res evs, activate o l = (res, evs) →
      ∀ r, Event.generate r ∉ evs := by
  induction l with
  | nil =>
    intro res evs h r
    simp only [activate, Prod.mk.injEq] at h
    rw [← h.2]
    simp
  | cons x rest ih =>
    intro res evs h r
    match x with
    | none =>
      exact ih res evs h r
    | some f =>
      match hn : f.name with
      | none =>
        simp only [activate, hn] at h
        exact ih res evs h r
      | some n =>
        by_cases hne : n = ""
        · simp only [activate, hn, hne, if_true] at h
          exact ih res evs h r
        · simp only [activate, hn, hne, if_false, ↓reduceIte] at h
          cases hw : waitUntilActive (o.fetchSeq n) 180 with
          | mk out k =>
            cases out with
            | active fresh =>
              rw [hw] at h
              cases hrest : activate o rest with
              | mk res2 evs2 =>
                rw [hrest] at h
                cases res2 with
                | ok fs =>
                  simp only [Prod.mk.injEq] at h
                  rw [← h.2]
                  intro hmem
                  rcases List.mem_append.mp hmem with hmem1 | hmem2
                  · exact waitEvents_no_generate n k r hmem1
                  · exact ih _ evs2 hrest r hmem2
                | error m =>
                  simp only [Prod.mk.injEq] at h
                  rw [← h.2]
                  intro hmem
                  rcases List.mem_append.mp hmem with hmem1 | hmem2
                  · exact waitEvents_no_generate n k r hmem1
                  · exact ih _ evs2 hrest r hmem2
            | procFailed m =>
              rw [hw] at h
              simp only [Prod.mk.injEq] at h
              rw [← h.2]
              exact waitEvents_no_generate n k r
            | timeoutErr m =>
              rw [hw] at h
              simp only [Prod.mk.injEq] at h
              rw [← h.2]
              exact waitEvents_no_generate n k r
            | fetchError m =>
              rw [hw] at h
              simp only [Prod.mk.injEq] at h
              rw [← h.2]
              exact waitEvents_no_generate n k r

/-- C4: when every reference surviving activation lacks a truthy
retrieval URI (so the URI filter of line 68 drops them all), the workflow
appends the NoValidFiles error message and returns at once; its service
trace is exactly the activation trace, which contains no
`generate_content` call. -/
theorem claim_C4_no_valid_files_no_call (o : Oracle) (s : BidState)
    (actives : List FileRef) (evs : List (Event GenRequest))
    (h1 : activate o (filesOf s) = (.ok actives, evs))
    (h2 : (actives.filter uriTruthy).isEmpty = true) :
    extractor_agent o s =
      ({ s with gemini_files := some (actives.map some),
                errors := s.errors ++
                  ["Extractor error: no valid uploaded Gemini files (missing .uri or .name)."] },
       evs) ∧
    ∀ r, Event.generate r ∉ (extractor_agent o s).2 := by
  have heq := agent_no_valid_files o s actives evs h1 h2
  refine ⟨heq, fun r => ?_⟩
  rw [heq]
  exact activate_no_generate o (filesOf s) (.ok actives) evs h1 r

/-- An input reference named "w4" (witness input). -/
def refW4 : FileRef :=
  { name := some "w4", uri := some "u", mime_type := none, state := "PROCESSING" }

/-- The refreshed "w4" reference: ACTIVE but without a URI (witness
input). -/
def refW4f : FileRef :=
  { name := some "w4", uri := none, mime_type := none, state := "ACTIVE" }

/-- Oracle whose file service immediately activates `refW4f` (which has
no URI); the generate endpoint would fail if it were ever called
(witness input). -/
def oW4 : Oracle :=
  { fetchSeq := fun _ _ => .ok refW4f,
    generate := fun _ => .apiError "unreachable",
    modelName := none }

/-- Witness for C4: one uploaded file that activates without a URI; the
run ends with the NoValidFiles error and no generate call in the trace. -/
theorem claim_C4_witness :
    activate oW4 (filesOf (BidState.init [some refW4])) =
      (.ok [refW4f], [Event.fetchFile "w4" 0]) ∧
    (([refW4f].filter uriTruthy).isEmpty = true) ∧
    (extractor_agent oW4 (BidState.init [some refW4]) =
      ({ BidState.init [some refW4] with
          gemini_files := some ([refW4f].map some),
          errors := (BidState.init [some refW4]).errors ++
            ["Extractor error: no valid uploaded Gemini files (missing .uri or .name)."] },
       [Event.fetchFile "w4" 0]) ∧
     ∀ r, Event.generate r ∉ (extractor_agent oW4 (BidState.init [some refW4])).2) := by
  have h1 : activate oW4 (filesOf (BidState.init [some refW4])) =
      (.ok [refW4f], [Event.fetchFile "w4" 0]) := by
    simp only [activate, filesOf, BidState.init, oW4, refW4, waitUntilActive]
    rw [waitGo_eq]
    rfl
  exact ⟨h1, by decide,
    claim_C4_no_valid_files_no_call oW4 (BidState.init [some refW4])
      [refW4f] [Event.fetchFile "w4" 0] h1 (by decide)⟩

/-- C8: whenever valid references survive the URI filter, the service
trace ends with exactly one `generate_content` call, whose request is the
fixed instruction prompt followed by one content part per surviving
reference — each part carrying that file's retrieval URI and its MIME
type, defaulting to "application/pdf" when the reference does not
specify one. -/
theorem claim_C8_request_construction (o : Oracle) (s : BidState)
    (actives : List FileRef) (evs : List (Event GenRequest))
    (h1 : activate o (filesOf s) = (.ok actives, evs))
    (h2 : (actives.filter uriTruthy).isEmpty = false) :
    (extractor_agent o s).2 =
      evs ++ [Event.generate (builtRequest o (actives.filter uriTruthy))] ∧
    (builtRequest o (actives.filter uriTruthy)).contents_prompt =
      get_extractor_prompt ∧
    (builtRequest o (actives.filter uriTruthy)).contents_parts =
      (actives.filter uriTruthy).map (fun f =>
        { file_uri := pyStrOpt f.uri,
          mime_type := match f.mime_type with
                       | some m => m
                       | none => "application/pdf" }) := by
  refine ⟨?_, rfl, ?_⟩
  · cases hgen : o.generate (builtRequest o (actives.filter uriTruthy)) with
    | apiError tb => rw [agent_api_error o s actives evs tb h1 h2 hgen]
    | otherError tb => rw [agent_other_error o s actives evs tb h1 h2 hgen]
    | ok resp =>
      cases hp : resp.parsed with
      | some x => rw [agent_parsed_ok o s actives evs resp x h1 h2 hgen hp]
      | none =>
        cases hpv : parseValidate (responseText resp) with
        | error e => rw [agent_parse_error o s actives evs resp e h1 h2 hgen hp hpv]
        | ok x => rw [agent_text_ok o s actives evs resp x h1 h2 hgen hp hpv]
  · rfl

/-- An input reference named "w8" (witness input). -/
def refW8 : FileRef :=
  { name := some "w8", uri := some "u8", mime_type := none, state := "PROCESSING" }

/-- The refreshed "w8" reference: ACTIVE with a URI and no MIME type
(witness input). -/
def refW8f : FileRef :=
  { name := some "w8", uri := some "u8", mime_type := none, state := "ACTIVE" }

/-- Oracle that immediately activates `refW8f` and then fails the
generate call (witness input; the request shape is unaffected by the
call's outcome). -/
def oW8 : Oracle :=
  { fetchSeq := fun _ _ => .ok refW8f,
    generate := fun _ => .otherError "boom",
    modelName := none }

/-- Witness for C8: a single valid file without a MIME type; the one
generate call carries the prompt and one part with the file's URI and the
default "application/pdf". -/
theorem claim_C8_witness :
    activate oW8 (filesOf (BidState.init [some refW8])) =
      (.ok [refW8f], [Event.fetchFile "w8" 0]) ∧
    (([refW8f].filter uriTruthy).isEmpty = false) ∧
    ((extractor_agent oW8 (BidState.init [some refW8])).2 =
      [Event.fetchFile "w8" 0] ++
        [Event.generate (builtRequest oW8 ([refW8f].filter uriTruthy))] ∧
     (builtRequest oW8 ([refW8f].filter uriTruthy)).contents_prompt =
       get_extractor_prompt ∧
     (builtRequest oW8 ([refW8f].filter uriTruthy)).contents_parts =
       ([refW8f].filter uriTruthy).map (fun f =>
         { file_uri := pyStrOpt f.uri,
           mime_type := match f.mime_type with
                        | some m => m
                        | none => "application/pdf" })) := by
  have h1 : activate oW8 (filesOf (BidState.init [some refW8])) =
      (.ok [refW8f], [Event.fetchFile "w8" 0]) := by
    simp only [activate, filesOf, BidState.init, oW8, refW8, waitUntilActive]
    rw [waitGo_eq]
    rfl
  exact ⟨h1, by decide,
    claim_C8_request_construction oW8 (BidState.init [some refW8])
      [refW8f] [Event.fetchFile "w8" 0] h1 (by decide)⟩

/-- An input reference named "w3" (witness/counterexample input). -/
def refW3 : FileRef :=
  { name := some "w3", uri := some "u3", mime_type := some "application/pdf",
    state := "PROCESSING" }

/-- The refreshed "w3" reference, immediately ACTIVE (witness input). -/
def refW3f : FileRef :=
  { name := some "w3", uri := some "u3", mime_type := some "application/pdf",
    state := "ACTIVE" }

/-- A response with no parsed object whose raw text carries trailing
whitespace (counterexample input). -/
def respW3x : GenResponse :=
  { parsed := none, text := some "null " }

/-- Oracle activating `refW3f` and answering the generate call with
`respW3x` (counterexample input). -/
def oW3x : Oracle :=
  { fetchSeq := fun _ _ => .ok refW3f,
    generate := fun _ => .ok respW3x,
    modelName := none }

/-- Counterexample for C3: the response's raw text is "null " (with a
trailing space), but the state stores the stripped text "null" — not the
raw text verbatim. -/
theorem claim_C3_counterexample :
    respW3x.text = some "null " ∧
    (extractor_agent oW3x (BidState.init [some refW3])).1.raw_extractor_output =
      some "null" ∧
    (extractor_agent oW3x (BidState.init [some refW3])).1.raw_extractor_output ≠
      some "null " := by
  have h : (extractor_agent oW3x (BidState.init [some refW3])).1.raw_extractor_output =
      some "null" := by
    simp only [extractor_agent, filesOf, BidState.init, activate, oW3x, refW3,
      waitUntilActive]
    rw [waitGo_eq]
    rfl
  exact ⟨rfl, h, by rw [h]; decide⟩

/-- C3 (amended): when the service response carries no already-parsed
object, the workflow stores the whitespace-stripped raw text of the
response (the exact string it then parses) in the state for diagnostics,
parses it as JSON and validates it against the schema; if either step
fails, it appends exactly one ParseValidation error and leaves the three
result fields exactly as they were (empty on a fresh state). -/
theorem claim_C3_parse_failure (o : Oracle) (s : BidState)
    (actives : List FileRef) (evs : List (Event GenRequest))
    (resp : GenResponse) (e : String)
    (h1 : activate o (filesOf s) = (.ok actives, evs))
    (h2 : (actives.filter uriTruthy).isEmpty = false)
    (h3 : o.generate (builtRequest o (actives.filter uriTruthy)) = .ok resp)
    (h4 : resp.parsed = none)
    (h5 : parseValidate (responseText resp) = .error e) :
    (extractor_agent o s).1.raw_extractor_output = some (responseText resp) ∧
    (extractor_agent o s).1.errors =
      s.errors ++ ["Extractor JSON parse/validate error: " ++ e] ∧
    (extractor_agent o s).1.file_classification = s.file_classification ∧
    (extractor_agent o s).1.project_info = s.project_info ∧
    (extractor_agent o s).1.project_report = s.project_report := by
  rw [agent_parse_error o s actives evs resp e h1 h2 h3 h4 h5]
  exact ⟨rfl, rfl, rfl, rfl, rfl⟩

/-- A response whose raw text is not JSON (witness input). -/
def respW3 : GenResponse :=
  { parsed := none, text := some " not json " }

/-- Oracle activating `refW3f` and answering the generate call with
`respW3` (witness input). -/
def oW3 : Oracle :=
  { fetchSeq := fun _ _ => .ok refW3f,
    generate := fun _ => .ok respW3,
    modelName := none }

/-- Witness for the amended C3: a non-JSON response body yields exactly
one ParseValidation error, the stripped text is stored, and the fresh
state's three result fields stay empty. -/
theorem claim_C3_witness :
    activate oW3 (filesOf (BidState.init [some refW3])) =
      (.ok [refW3f], [Event.fetchFile "w3" 0]) ∧
    (([refW3f].filter uriTruthy).isEmpty = false) ∧
    oW3.generate (builtRequest oW3 ([refW3f].filter uriTruthy)) = .ok respW3 ∧
    respW3.parsed = none ∧
    parseValidate (responseText respW3) = .error "Expecting value" ∧
    ((extractor_agent oW3 (BidState.init [some refW3])).1.raw_extractor_output =
       some (responseText respW3) ∧
     (extractor_agent oW3 (BidState.init [some refW3])).1.errors =
       (BidState.init [some refW3]).errors ++
         ["Extractor JSON parse/validate error: " ++ "Expecting value"] ∧
     (extractor_agent oW3 (BidState.init [some refW3])).1.file_classification =
       (BidState.init [some refW3]).file_classification ∧
     (extractor_agent oW3 (BidState.init [some refW3])).1.project_info =
       (BidState.init [some refW3]).project_info ∧
     (extractor_agent oW3 (BidState.init [some refW3])).1.project_report =
       (BidState.init [some refW3]).project_report) := by
  have h1 : activate oW3 (filesOf (BidState.init [some refW3])) =
      (.ok [refW3f], [Event.fetchFile "w3" 0]) := by
    simp only [activate, filesOf, BidState.init, oW3, refW3, waitUntilActive]
    rw [waitGo_eq]
    rfl
  exact ⟨h1, by decide, rfl, rfl, rfl,
    claim_C3_parse_failure oW3 (BidState.init [some refW3])
      [refW3f] [Event.fetchFile "w3" 0] respW3 "Expecting value"
      h1 (by decide) rfl rfl rfl⟩

theorem activate_filter (o : Oracle) (files : List (Option FileRef)) :
    activate o files = activate o (files.filter usableRef) := by
  induction files with
  | nil => rfl
  | cons x rest ih =>
    cases x with
    | none =>
      show activate o rest = activate o ((none :: rest).filter usableRef)
      rw [show (none :: rest).filter usableRef = rest.filter usableRef from by
        simp [List.filter, usableRef]]
      exact ih
    | some f =>
      match hn : f.name with
      | none =>
        have hu : usableRef (some f) = false := by simp [usableRef, hn]
        rw [show (some f :: rest).filter usableRef = rest.filter usableRef from by
          simp [List.filter, hu]]
        simp only [activate, hn]
        exact ih
      | some n =>
        by_cases hne : n = ""
        · have hu : usableRef (some f) = false := by simp [usableRef, hn, hne]
          rw [show (some f :: rest).filter usableRef = rest.filter usableRef from by
            simp [List.filter, hu]]
          simp only [activate, hn, hne, if_true]
          exact ih
        · have hu : usableRef (some f) = true := by simp [usableRef, hn, hne]
          rw [show (some f :: rest).filter usableRef =
              some f :: rest.filter usableRef from by simp [List.filter, hu]]
          simp only [activate, hn, hne, if_false]
          rw [ih]

/-- The refreshed "w10" reference: FAILED processing (counterexample
input). -/
def refW10f : FileRef :=
  { name := some "w10", uri := some "u", mime_type := none, state := "FAILED" }

/-- An input reference named "w10" (counterexample input). -/
def refW10 : FileRef :=
  { name := some "w10", uri := some "u", mime_type := none, state := "PROCESSING" }

/-- Oracle whose file service reports FAILED for every poll
(counterexample input). -/
def oW10 : Oracle :=
  { fetchSeq := fun _ _ => .ok refW10f,
    generate := fun _ => .apiError "unreachable",
    modelName := none }

/-- Counterexample for C10: with a `None` entry followed by a file whose
activation fails, the returned state's file list still contains the
`None` entry — the skipped references are not removed from the state's
file list on every run (the rewrite at line 63 only happens when the
whole activation loop succeeds). -/
theorem claim_C10_counterexample :
    usableRef none = false ∧
    (extractor_agent oW10 (BidState.init [none, some refW10])).1.gemini_files =
      some [none, some refW10] ∧
    (extractor_agent oW10 (BidState.init [none, some refW10])).1.errors ≠ [] := by
  have h : extractor_agent oW10 (BidState.init [none, some refW10]) =
      ({ BidState.init [none, some refW10] with
          errors := ["File activation error:\n" ++
            ("Gemini file processing FAILED for: " ++ pyStrOpt refW10f.name)] },
       [Event.fetchFile "w10" 0]) := by
    simp only [extractor_agent, filesOf, BidState.init, activate, oW10, refW10,
      waitUntilActive]
    rw [waitGo_eq]
    rfl
  rw [h]
  exact ⟨rfl, rfl, by decide⟩

/-- C10 (amended): input file references that are `None` or lack a
truthy identifying name are silently skipped before any polling — the
run behaves exactly as if they were absent: the service trace (hence no
status fetch for them, no additional sleep, the same generate call) and
the whole returned state coincide with those of the run on the
pre-filtered list, except that on the activation-failure path (where the
code never reaches the file-list rewrite of line 63) the original,
unfiltered list is left in place. -/
theorem claim_C10_skipped_refs (o : Oracle) (s : BidState)
    (files : List (Option FileRef)) :
    (extractor_agent o { s with gemini_files := some files }).2 =
      (extractor_agent o { s with gemini_files := some (files.filter usableRef) }).2 ∧
    ((extractor_agent o { s with gemini_files := some files }).1 =
       (extractor_agent o { s with gemini_files := some (files.filter usableRef) }).1 ∨
     (extractor_agent o { s with gemini_files := some files }).1 =
       { (extractor_agent o
           { s with gemini_files := some (files.filter usableRef) }).1 with
           gemini_files := some files }) := by
  have hf1 : filesOf { s with gemini_files := some files } = files := rfl
  have hf2 : filesOf { s with gemini_files := some (files.filter usableRef) } =
      files.filter usableRef := rfl
  cases hact : activate o files with
  | mk res evs =>
    have hact1 : activate o (filesOf { s with gemini_files := some files }) =
        (res, evs) := by rw [hf1]; exact hact
    have hact2 : activate o
        (filesOf { s with gemini_files := some (files.filter usableRef) }) =
        (res, evs) := by rw [hf2, ← activate_filter]; exact hact
    cases res with
    | error tb =>
      rw [agent_activation_error _ _ tb evs hact1,
          agent_activation_error _ _ tb evs hact2]
      exact ⟨rfl, .inr rfl⟩
    | ok actives =>
      cases hfil : (actives.filter uriTruthy).isEmpty with
      | true =>
        rw [agent_no_valid_files _ _ actives evs hact1 hfil,
            agent_no_valid_files _ _ actives evs hact2 hfil]
        exact ⟨rfl, .inl rfl⟩
      | false =>
        cases hgen : o.generate (builtRequest o (actives.filter uriTruthy)) with
        | apiError tb =>
          rw [agent_api_error _ _ actives evs tb hact1 hfil hgen,
              agent_api_error _ _ actives evs tb hact2 hfil hgen]
          exact ⟨rfl, .inl rfl⟩
        | otherError tb =>
          rw [agent_other_error _ _ actives evs tb hact1 hfil hgen,
              agent_other_error _ _ actives evs tb hact2 hfil hgen]
          exact ⟨rfl, .inl rfl⟩
        | ok resp =>
          cases hp : resp.parsed with
          | some x =>
            rw [agent_parsed_ok _ _ actives evs resp x hact1 hfil hgen hp,
                agent_parsed_ok _ _ actives evs resp x hact2 hfil hgen hp]
            exact ⟨rfl, .inl rfl⟩
          | none =>
            cases hpv : parseValidate (responseText resp) with
            | error e =>
              rw [agent_parse_error _ _ actives evs resp e hact1 hfil hgen hp hpv,
                  agent_parse_error _ _ actives evs resp e hact2 hfil hgen hp hpv]
              exact ⟨rfl, .inl rfl⟩
            | ok x =>
              rw [agent_text_ok _ _ actives evs resp x hact1 hfil hgen hp hpv,
                  agent_text_ok _ _ actives evs resp x hact2 hfil hgen hp hpv]
              exact ⟨rfl, .inl rfl⟩
